import Mathlib

/-!
Verification of the scooter-demand hierarchical model
(`scooter_demand_model.py`) against its natural-language specification.

The two functions under study are `fit_hierarchical_model` (model
construction plus the try-Laplace / fall-back-to-full-rank-ADVI control
flow) and `calculate_residuals` (posterior means, exponential link,
residuals).  Numeric values are embedded as real numbers; pandas
DataFrames as ordered association lists from column name to column data;
exceptions as an explicit error type threaded through `Except`.
-/

set_option autoImplicit false

namespace ScooterDemand

/-- Exception outcomes relevant to this development.  The source code only
ever produces `keyError` (a missing DataFrame column) and `valueError`
(numpy / pandas shape errors); the remaining constructors stand for the
exception names used by the specification, so that their absence from the
code's behaviour can be stated. -/
inductive PyError where
  | keyError : PyError
  | valueError : PyError
  | invalidModelError : PyError
  | inferenceFailureError : PyError
  | dimensionMismatchError : PyError
  deriving DecidableEq, Repr

/-- A pandas DataFrame of numeric columns, embedded as an ordered
association list from column name to the list of values in row order. -/
structure DataFrame where
  cols : List (String × List ℝ)

/-- Column lookup, `df[name]`; `none` models a `KeyError`. -/
def DataFrame.getCol (df : DataFrame) (name : String) : Option (List ℝ) :=
  (df.cols.find? (fun c => c.fst == name)).map Prod.snd

/-- Column assignment `df[name] = v`: overwrites an existing column in
place (keeping its position) or appends a new column at the end. -/
def DataFrame.setCol (df : DataFrame) (name : String) (v : List ℝ) : DataFrame :=
  if (df.cols.find? (fun c => c.fst == name)).isSome then
    ⟨df.cols.map (fun c => if c.fst == name then (name, v) else c)⟩
  else
    ⟨df.cols ++ [(name, v)]⟩

/-- Row count `len(df)`, read off the first column (pandas keeps all
columns on one shared index). -/
def DataFrame.nrows (df : DataFrame) : ℕ :=
  match df.cols with
  | [] => 0
  | c :: _ => c.snd.length

/-- All columns have the row count's length - true of every DataFrame
pandas can actually represent. -/
def DataFrame.WellFormed (df : DataFrame) : Prop :=
  ∀ c ∈ df.cols, c.snd.length = df.nrows

def infrastructureCol : String := "infrastructure"
def observedDemandCol : String := "observed_demand"
def residualsCol : String := "residuals"
def predictedDemandCol : String := "predicted_demand"

/-- Posterior trace: the ensemble of draws for each latent component, the
chain and draw dimensions flattened into one list.  `neighEffDim` is the
length of the `neigh_eff` axis, i.e. the random-effect dimensionality the
model was fitted with. -/
structure Trace where
  alphaDraws : List ℝ
  betaDraws : List ℝ
  neighEffDim : ℕ
  neighEffDraws : List (List ℝ)

/-- Mean of a flattened ensemble, as in `trace.posterior[v].mean()`. -/
noncomputable def meanList (l : List ℝ) : ℝ := l.sum / l.length

/-- Per-component mean over the chain and draw dimensions, as in
`trace.posterior["neigh_eff"].mean(dim=["chain", "draw"])`. -/
noncomputable def columnMeans (draws : List (List ℝ)) (dim : ℕ) : List ℝ :=
  (List.range dim).map (fun i => meanList (draws.map (fun d => d.getD i 0)))

/-- Elementwise addition of two one-dimensional numpy arrays under numpy
broadcasting: the lengths must agree or one of them must be 1; `none`
models the broadcasting `ValueError` numpy raises otherwise. -/
noncomputable def numpyAdd (a b : List ℝ) : Option (List ℝ) :=
  if a.length = b.length then some (List.zipWith (fun x y => x + y) a b)
  else if a.length = 1 then some (b.map (fun y => a.headI + y))
  else if b.length = 1 then some (a.map (fun x => x + b.headI))
  else none

/-- Subtraction of a numpy array from a pandas Series sharing the frame's
index: pandas requires the lengths to match exactly and raises a
`ValueError` otherwise. -/
noncomputable def seriesSub (s a : List ℝ) : Option (List ℝ) :=
  if s.length = a.length then some (List.zipWith (fun x y => x - y) s a)
  else none

/-- Embedding of `calculate_residuals` (scooter_demand_model.py, lines
110-139): take the posterior mean of `neigh_eff` per component and of
`alpha` and `beta_infra` over all draws, form the log-rate
`alpha + beta_infra * infrastructure + neigh_eff` under numpy
broadcasting, exponentiate, subtract from `observed_demand`, and store
both new columns on the caller's frame (the in-place `df[...] = ...`
mutation is modelled by returning the updated frame, which replaces the
caller's binding).  The final length test models pandas' check that an
assigned ndarray matches `len(df)`. -/
noncomputable def calculate_residuals (df : DataFrame) (trace : Trace) :
    Except PyError DataFrame :=
  match df.getCol infrastructureCol with
  | none => .error .keyError
  | some infra =>
    let posterior_neigh_eff := columnMeans trace.neighEffDraws trace.neighEffDim
    let posterior_alpha := meanList trace.alphaDraws
    let posterior_beta_infra := meanList trace.betaDraws
    match numpyAdd (infra.map (fun x => posterior_alpha + posterior_beta_infra * x))
        posterior_neigh_eff with
    | none => .error .valueError
    | some posterior_log_lambda =>
      let posterior_lambda := posterior_log_lambda.map Real.exp
      match df.getCol observedDemandCol with
      | none => .error .keyError
      | some obs =>
        match seriesSub obs posterior_lambda with
        | none => .error .valueError
        | some residuals =>
          if posterior_lambda.length = df.nrows then
            .ok ((df.setCol residualsCol residuals).setCol predictedDemandCol
              posterior_lambda)
          else .error .valueError

/-- The generative model built by `fit_hierarchical_model` (lines 81-95):
prior scales are hard-coded, the random-effect shape is the frame's row
count, and the link reads the `infrastructure` column. -/
structure PmModel where
  alphaSigma : ℝ
  betaInfraSigma : ℝ
  sigmaNeighSigma : ℝ
  nNeigh : ℕ
  infra : List ℝ
  observed : List ℝ

/-- Embedding of the model-construction block of `fit_hierarchical_model`:
`alpha ~ Normal(0, 5)`, `beta_infra ~ Normal(0, 3)`,
`sigma_neigh ~ HalfNormal(1)`, `neigh_eff` of shape `len(df)`.  There is
no validation step; the only way construction fails is a `KeyError` from
reading a column the frame lacks. -/
noncomputable def buildModel (df : DataFrame) : Except PyError PmModel :=
  match df.getCol infrastructureCol with
  | none => .error .keyError
  | some infra =>
    match df.getCol observedDemandCol with
    | none => .error .keyError
    | some obs =>
      .ok { alphaSigma := 5, betaInfraSigma := 3, sigmaNeighSigma := 1,
            nNeigh := df.nrows, infra := infra, observed := obs }

/-- The two inference strategies the source attempts, in order. -/
inductive Strategy where
  | laplace
  | fullrank_advi
  deriving DecidableEq, Repr

/-- The approximating distribution returned by `pm.fit`; its contents play
no role in the control-flow claims. -/
structure ApproxDist where
  meanVec : List ℝ

/-- Embedding of the try/except block of `fit_hierarchical_model` (lines
98-103): attempt Laplace; on any exception fall back to fullrank ADVI.
The outcomes of the two external `pm.fit` calls are supplied as
parameters.  The fallback call is not itself guarded, so its exception
propagates unchanged. -/
def attemptStrategies (laplaceRes adviRes : Except PyError ApproxDist) :
    Except PyError (Strategy × ApproxDist) :=
  match laplaceRes with
  | .ok a => .ok (Strategy.laplace, a)
  | .error _ =>
    match adviRes with
    | .ok a => .ok (Strategy.fullrank_advi, a)
    | .error e => .error e

/-- Embedding of `fit_hierarchical_model`: build the model from the frame,
then run the strategy fallback. -/
noncomputable def fit_hierarchical_model (df : DataFrame)
    (laplaceRes adviRes : Except PyError ApproxDist) :
    Except PyError (PmModel × Strategy × ApproxDist) :=
  match buildModel df with
  | .error e => .error e
  | .ok m =>
    match attemptStrategies laplaceRes adviRes with
    | .error e => .error e
    | .ok sa => .ok (m, sa.fst, sa.snd)

/-- The predicted-demand vector that `calculate_residuals` produces when
the random-effect dimensionality matches the number of rows of the frame:
`exp` of posterior-mean alpha, plus posterior-mean beta times the
covariate, plus the per-unit posterior-mean random effect. -/
noncomputable def predictedOf (infra : List ℝ) (trace : Trace) : List ℝ :=
  (List.zipWith (fun x u => x + u)
    (infra.map (fun x => meanList trace.alphaDraws + meanList trace.betaDraws * x))
    (columnMeans trace.neighEffDraws trace.neighEffDim)).map Real.exp

/-- A two-row frame exercising the pipeline: covariates 0 and 1,
observed counts 0 and 5. -/
noncomputable def exDf : DataFrame :=
  ⟨[(infrastructureCol, [0, 1]), (observedDemandCol, [0, 5])]⟩

/-- A trace with posterior means alpha = 2, beta = 1 and two zero random
effects, so its random-effect dimensionality matches `exDf`. -/
noncomputable def exTrace : Trace := ⟨[2], [1], 2, [[0, 0]]⟩

/-- A trace identical to `exTrace` except that its random-effect axis
has length 1, mismatching the two rows of `exDf`. -/
noncomputable def exTrace5 : Trace := ⟨[2], [1], 1, [[0]]⟩

/-- A trace whose random-effect axis has length 3, mismatching the two
rows of `exDf` and not broadcastable either. -/
noncomputable def exTrace3 : Trace := ⟨[2], [1], 3, [[0, 0, 0]]⟩

/-- Predicted demand on `exDf` under `exTrace`. -/
noncomputable def exPred : List ℝ := [Real.exp 2, Real.exp 3]

/-- Residuals on `exDf` under `exTrace`. -/
noncomputable def exRes : List ℝ := [0 - Real.exp 2, 5 - Real.exp 3]

/-- The frame `calculate_residuals` returns on `exDf` and `exTrace`. -/
noncomputable def exOut : DataFrame :=
  ⟨[(infrastructureCol, [0, 1]), (observedDemandCol, [0, 5]),
    (residualsCol, exRes), (predictedDemandCol, exPred)]⟩

/-- The model `fit_hierarchical_model` builds over `exDf`. -/
noncomputable def exModel : PmModel := ⟨5, 3, 1, 2, [0, 1], [0, 5]⟩

/-- A frame whose units lack the `infrastructure` covariate. -/
noncomputable def noInfraDf : DataFrame := ⟨[(observedDemandCol, [1])]⟩

theorem columnMeans_length (draws : List (List ℝ)) (dim : ℕ) :
    (columnMeans draws dim).length = dim := by
  simp [columnMeans]

theorem columnMeans_getD (draws : List (List ℝ)) (dim i : ℕ) (h : i < dim) :
    (columnMeans draws dim).getD i 0 = meanList (draws.map (fun d => d.getD i 0)) := by
  rw [List.getD_eq_getElem _ _ (by simpa [columnMeans_length] using h)]
  simp [columnMeans]

theorem getCol_setCol_same (df : DataFrame) (name : String) (v : List ℝ) :
    (df.setCol name v).getCol name = some v := by
  unfold DataFrame.setCol DataFrame.getCol
  split
  next h =>
    rw [List.find?_map]
    have hp : ((fun c : String × List ℝ => c.fst == name) ∘
        (fun c => if c.fst == name then (name, v) else c)) =
        (fun c : String × List ℝ => c.fst == name) := by
      funext c
      by_cases hc : (c.fst == name)
      · have hceq : c.fst = name := by simpa using hc
        simp [hc, hceq]
      · have hcne : c.fst ≠ name := by simpa using hc
        simp [hc, hcne]
    rw [hp]
    obtain ⟨c₀, hc₀⟩ := Option.isSome_iff_exists.mp h
    have hpc₀ := List.find?_some hc₀
    have hceq : c₀.fst = name := by simpa using hpc₀
    rw [hc₀]
    simp [hceq]
  next h =>
    rw [List.find?_append]
    have hnone : df.cols.find? (fun c => c.fst == name) = none := by
      cases hf : df.cols.find? (fun c => c.fst == name) with
      | none => rfl
      | some c₀ => rw [hf] at h; simp at h
    rw [hnone]
    simp

theorem getCol_setCol_other (df : DataFrame) (a b : String) (v : List ℝ)
    (hne : b ≠ a) : (df.setCol a v).getCol b = df.getCol b := by
  unfold DataFrame.setCol DataFrame.getCol
  split
  next h =>
    rw [List.find?_map]
    have hp : ((fun c : String × List ℝ => c.fst == b) ∘
        (fun c => if c.fst == a then (a, v) else c)) =
        (fun c : String × List ℝ => c.fst == b) := by
      funext c
      by_cases hc : (c.fst == a)
      · have hca : c.fst = a := by simpa using hc
        simp [hc, hca]
      · have hcne : c.fst ≠ a := by simpa using hc
        simp [hc, hcne]
    rw [hp]
    cases hf : df.cols.find? (fun c => c.fst == b) with
    | none => simp
    | some c₀ =>
      have hb := List.find?_some hf
      have hbeq : c₀.fst = b := by simpa using hb
      have hba : c₀.fst ≠ a := by rw [hbeq]; exact hne
      simp [hba]
  next h =>
    rw [List.find?_append]
    have hab : ((a : String) == b) = false := by
      simpa using fun habs => hne habs.symm
    have hsingle :
        List.find? (fun c : String × List ℝ => c.fst == b) [(a, v)] = none := by
      simp [List.find?, hab]
    rw [hsingle]
    simp

theorem seriesSub_eq_of_length_eq (s a : List ℝ) (h : s.length = a.length) :
    seriesSub s a = some (List.zipWith (fun x y => x - y) s a) := by
  unfold seriesSub
  rw [if_pos h]

theorem seriesSub_eq_some (s a r : List ℝ) (h : seriesSub s a = some r) :
    s.length = a.length ∧ r = List.zipWith (fun x y => x - y) s a := by
  unfold seriesSub at h
  split at h
  next hl => cases h; exact ⟨hl, rfl⟩
  next hl => cases h

theorem numpyAdd_eq_of_length_eq (a b : List ℝ) (h : a.length = b.length) :
    numpyAdd a b = some (List.zipWith (fun x y => x + y) a b) := by
  unfold numpyAdd
  rw [if_pos h]

theorem numpyAdd_right_one (a : List ℝ) (x : ℝ) :
    numpyAdd a [x] = some (a.map (fun y => y + x)) := by
  unfold numpyAdd
  by_cases h : a.length = 1
  · obtain ⟨y, rfl⟩ := List.length_eq_one.mp h
    simp
  · rw [if_neg (by simpa using h), if_neg h]
    simp

theorem numpyAdd_eq_none (a b : List ℝ) (ha : a.length ≠ b.length)
    (h1 : a.length ≠ 1) (h2 : b.length ≠ 1) : numpyAdd a b = none := by
  unfold numpyAdd
  rw [if_neg ha, if_neg h1, if_neg h2]

theorem calculate_residuals_eq_ok
    (df : DataFrame) (trace : Trace) (infra obs : List ℝ)
    (hi : df.getCol infrastructureCol = some infra)
    (ho : df.getCol observedDemandCol = some obs)
    (hdim : trace.neighEffDim = infra.length)
    (holen : obs.length = infra.length)
    (hnr : df.nrows = infra.length) :
    calculate_residuals df trace =
      Except.ok ((df.setCol residualsCol
          (List.zipWith (fun k y => k - y) obs (predictedOf infra trace))).setCol
        predictedDemandCol (predictedOf infra trace)) := by
  have hcm : (columnMeans trace.neighEffDraws trace.neighEffDim).length = infra.length := by
    rw [columnMeans_length, hdim]
  have hadd := numpyAdd_eq_of_length_eq
    (infra.map (fun x => meanList trace.alphaDraws + meanList trace.betaDraws * x))
    (columnMeans trace.neighEffDraws trace.neighEffDim) (by simpa using hcm.symm)
  have hlamlen : (List.zipWith (fun x y => x + y)
      (infra.map (fun x => meanList trace.alphaDraws + meanList trace.betaDraws * x))
      (columnMeans trace.neighEffDraws trace.neighEffDim)).length = infra.length := by
    simp [List.length_zipWith, hcm]
  have hsub := seriesSub_eq_of_length_eq obs
    ((List.zipWith (fun x y => x + y)
      (infra.map (fun x => meanList trace.alphaDraws + meanList trace.betaDraws * x))
      (columnMeans trace.neighEffDraws trace.neighEffDim)).map Real.exp)
    (by simpa [hlamlen] using holen)
  simp only [calculate_residuals, hi, ho, hadd, hsub]
  rw [if_pos (by simpa [hlamlen] using hnr.symm)]
  simp [predictedOf]

theorem calculate_residuals_ok_elim
    (df : DataFrame) (trace : Trace) (df' : DataFrame)
    (h : calculate_residuals df trace = Except.ok df') :
    ∃ infra obs lam,
      df.getCol infrastructureCol = some infra ∧
      df.getCol observedDemandCol = some obs ∧
      numpyAdd (infra.map (fun x => meanList trace.alphaDraws + meanList trace.betaDraws * x))
          (columnMeans trace.neighEffDraws trace.neighEffDim) = some lam ∧
      obs.length = (lam.map Real.exp).length ∧
      (lam.map Real.exp).length = df.nrows ∧
      df' = (df.setCol residualsCol
          (List.zipWith (fun x y => x - y) obs (lam.map Real.exp))).setCol
        predictedDemandCol (lam.map Real.exp) := by
  unfold calculate_residuals at h
  dsimp only at h
  split at h
  next => cases h
  next infra hi =>
    split at h
    next => cases h
    next lam hadd =>
      split at h
      next => cases h
      next obs ho =>
        split at h
        next => cases h
        next residuals hsub =>
          split at h
          next hlen =>
            cases h
            obtain ⟨hslen, rfl⟩ := seriesSub_eq_some _ _ _ hsub
            exact ⟨infra, obs, lam, hi, ho, hadd, hslen, hlen, rfl⟩
          next hlen => cases h

theorem numpyAdd_left_one (x : ℝ) (b : List ℝ) :
    numpyAdd [x] b = some (b.map (fun y => x + y)) := by
  unfold numpyAdd
  by_cases h : b.length = 1
  · obtain ⟨y, rfl⟩ := List.length_eq_one.mp h
    simp
  · rw [if_neg (by simpa using fun hb => h hb.symm), if_pos (by simp)]
    simp

theorem seriesSub_eq_none (s a : List ℝ) (h : s.length ≠ a.length) :
    seriesSub s a = none := by
  unfold seriesSub
  rw [if_neg h]

theorem calculate_residuals_error_cases
    (df : DataFrame) (trace : Trace) (e : PyError)
    (h : calculate_residuals df trace = Except.error e) :
    e = PyError.keyError ∨ e = PyError.valueError := by
  unfold calculate_residuals at h
  dsimp only at h
  split at h
  next => injection h with h; exact Or.inl h.symm
  next infra hi =>
    split at h
    next => injection h with h; exact Or.inr h.symm
    next lam hadd =>
      split at h
      next => injection h with h; exact Or.inl h.symm
      next obs ho =>
        split at h
        next => injection h with h; exact Or.inr h.symm
        next residuals hsub =>
          split at h
          next hlen => cases h
          next hlen => injection h with h; exact Or.inr h.symm

theorem getCol_pair_fst (v w : List ℝ) :
    (DataFrame.mk [(infrastructureCol, v), (observedDemandCol, w)]).getCol
      infrastructureCol = some v := by
  simp [DataFrame.getCol, infrastructureCol]

theorem getCol_pair_snd (v w : List ℝ) :
    (DataFrame.mk [(infrastructureCol, v), (observedDemandCol, w)]).getCol
      observedDemandCol = some w := by
  simp [DataFrame.getCol, infrastructureCol, observedDemandCol]

theorem exDf_infra : exDf.getCol infrastructureCol = some [0, 1] :=
  getCol_pair_fst [0, 1] [0, 5]

theorem exDf_obs : exDf.getCol observedDemandCol = some [0, 5] :=
  getCol_pair_snd [0, 1] [0, 5]

theorem exDf_nrows : exDf.nrows = 2 := rfl

theorem setCol_fresh (df : DataFrame) (name : String) (v : List ℝ)
    (h : df.getCol name = none) :
    df.setCol name v = DataFrame.mk (df.cols ++ [(name, v)]) := by
  have hf : df.cols.find? (fun c => c.fst == name) = none := by
    unfold DataFrame.getCol at h
    exact Option.map_eq_none'.mp h
  unfold DataFrame.setCol
  rw [hf]
  simp

theorem exDf_res_none : exDf.getCol residualsCol = none := by
  simp [exDf, DataFrame.getCol, infrastructureCol, observedDemandCol,
    residualsCol]

theorem exMid_pred_none (v : List ℝ) :
    (DataFrame.mk (exDf.cols ++ [(residualsCol, v)])).getCol
      predictedDemandCol = none := by
  simp [exDf, DataFrame.getCol, infrastructureCol, observedDemandCol,
    residualsCol, predictedDemandCol]

theorem predictedOf_ex : predictedOf [0, 1] exTrace = exPred := by
  simp [predictedOf, exTrace, exPred, columnMeans, meanList, List.range_succ]
  norm_num

theorem exRun : calculate_residuals exDf exTrace = Except.ok exOut := by
  rw [calculate_residuals_eq_ok exDf exTrace [0, 1] [0, 5] exDf_infra exDf_obs
    (by norm_num [exTrace]) (by norm_num) (by norm_num [exDf_nrows])]
  rw [predictedOf_ex]
  rw [setCol_fresh _ _ _ exDf_res_none]
  rw [setCol_fresh _ _ _ (exMid_pred_none _)]
  simp [exDf, exOut, exRes, exPred]

theorem exOut_res : exOut.getCol residualsCol = some exRes := by
  simp [exOut, DataFrame.getCol, infrastructureCol, observedDemandCol,
    residualsCol, predictedDemandCol]

theorem exOut_pred : exOut.getCol predictedDemandCol = some exPred := by
  simp [exOut, DataFrame.getCol, infrastructureCol, observedDemandCol,
    residualsCol, predictedDemandCol]

theorem exOut_obs : exOut.getCol observedDemandCol = some [0, 5] := by
  simp [exOut, DataFrame.getCol, infrastructureCol, observedDemandCol,
    residualsCol, predictedDemandCol]

theorem buildModel_exDf : buildModel exDf = Except.ok exModel := by
  simp [buildModel, exDf_infra, exDf_obs, exModel, exDf_nrows]

theorem calculate_residuals_eq_ok_bcast
    (df : DataFrame) (trace : Trace) (infra obs : List ℝ) (u : ℝ)
    (hi : df.getCol infrastructureCol = some infra)
    (ho : df.getCol observedDemandCol = some obs)
    (hcm : columnMeans trace.neighEffDraws trace.neighEffDim = [u])
    (holen : obs.length = infra.length)
    (hnr : df.nrows = infra.length) :
    calculate_residuals df trace =
      Except.ok ((df.setCol residualsCol (List.zipWith (fun k y => k - y) obs
          (((infra.map (fun x => meanList trace.alphaDraws +
              meanList trace.betaDraws * x)).map (fun y => y + u)).map
            Real.exp))).setCol predictedDemandCol
        (((infra.map (fun x => meanList trace.alphaDraws +
            meanList trace.betaDraws * x)).map (fun y => y + u)).map
          Real.exp)) := by
  have hadd : numpyAdd
      (infra.map (fun x => meanList trace.alphaDraws + meanList trace.betaDraws * x))
      (columnMeans trace.neighEffDraws trace.neighEffDim) =
      some ((infra.map (fun x => meanList trace.alphaDraws +
        meanList trace.betaDraws * x)).map (fun y => y + u)) := by
    rw [hcm, numpyAdd_right_one]
  have hsub := seriesSub_eq_of_length_eq obs
    (((infra.map (fun x => meanList trace.alphaDraws +
        meanList trace.betaDraws * x)).map (fun y => y + u)).map Real.exp)
    (by simp [holen])
  simp only [calculate_residuals, hi, ho, hadd, hsub]
  rw [if_pos (by simp [hnr])]

theorem exTrace5_cm :
    columnMeans exTrace5.neighEffDraws exTrace5.neighEffDim = [0] := by
  simp [exTrace5, columnMeans, meanList, List.range_succ]

theorem exRun5 : calculate_residuals exDf exTrace5 = Except.ok exOut := by
  rw [calculate_residuals_eq_ok_bcast exDf exTrace5 [0, 1] [0, 5] 0 exDf_infra
    exDf_obs exTrace5_cm (by norm_num) (by norm_num [exDf_nrows])]
  rw [setCol_fresh _ _ _ exDf_res_none]
  rw [setCol_fresh _ _ _ (exMid_pred_none _)]
  simp [exDf, exOut, exRes, exPred, exTrace5, meanList]
  norm_num

/-- C1: if the Laplace strategy raises any exception while the fullrank
ADVI strategy succeeds, `fit_hierarchical_model` does not propagate the
Laplace failure: it moves on to the next strategy in preference order and
returns the ADVI approximation, the strategy used being FullRankGaussian
(`fullrank_advi`). -/
theorem laplace_failure_falls_back_to_advi
    (df : DataFrame) (m : PmModel) (e : PyError) (a : ApproxDist)
    (hm : buildModel df = Except.ok m) :
    fit_hierarchical_model df (Except.error e) (Except.ok a) =
      Except.ok (m, Strategy.fullrank_advi, a) := by
  simp [fit_hierarchical_model, attemptStrategies, hm]

/-- Witness for `laplace_failure_falls_back_to_advi` at a concrete frame,
Laplace error and ADVI approximation. -/
theorem laplace_failure_falls_back_to_advi_applied :
    fit_hierarchical_model exDf (Except.error PyError.valueError)
        (Except.ok ⟨[]⟩) =
      Except.ok (exModel, Strategy.fullrank_advi, ⟨[]⟩) :=
  laplace_failure_falls_back_to_advi exDf exModel PyError.valueError ⟨[]⟩
    buildModel_exDf

/-- C4 counterexample: when both strategies fail (Laplace with a
ValueError, fullrank ADVI with a KeyError), fit surfaces the last
strategy's raw exception, which is not an InferenceFailureError. -/
theorem all_fail_raw_error_counterexample :
    fit_hierarchical_model exDf (Except.error PyError.valueError)
        (Except.error PyError.keyError) = Except.error PyError.keyError ∧
      PyError.keyError ≠ PyError.inferenceFailureError := by
  constructor
  · simp [fit_hierarchical_model, attemptStrategies, buildModel_exDf]
  · decide

/-- C4 amended: when every strategy fails, fit propagates the second
(fullrank ADVI) strategy's raw exception unchanged; no
InferenceFailureError and no record of attempted strategies exist. -/
theorem all_fail_propagates_advi_error
    (df : DataFrame) (m : PmModel) (e1 e2 : PyError)
    (hm : buildModel df = Except.ok m) :
    fit_hierarchical_model df (Except.error e1) (Except.error e2) =
      Except.error e2 := by
  simp [fit_hierarchical_model, attemptStrategies, hm]

/-- Witness for `all_fail_propagates_advi_error` at concrete errors. -/
theorem all_fail_propagates_advi_error_applied :
    fit_hierarchical_model exDf (Except.error PyError.keyError)
        (Except.error PyError.valueError) = Except.error PyError.valueError :=
  all_fail_propagates_advi_error exDf exModel PyError.keyError
    PyError.valueError buildModel_exDf

/-- C6 counterexample: on a frame whose units lack the covariate the link
references, model construction fails with a KeyError, not with an
InvalidModelError. -/
theorem missing_covariate_keyerror_counterexample :
    buildModel noInfraDf = Except.error PyError.keyError ∧
      PyError.keyError ≠ PyError.invalidModelError := by
  constructor
  · simp [buildModel, noInfraDf, DataFrame.getCol, infrastructureCol,
      observedDemandCol]
  · decide

/-- C6 amended: model construction performs no validation and never
raises an InvalidModelError: the prior scales are hard-coded positive
constants (5, 3 and 1), the random-effect dimensionality always equals
the number of rows, and the only possible failure is a KeyError from a
missing column.  Construction has no side effects. -/
theorem model_construction_no_validation (df : DataFrame) :
    buildModel df ≠ Except.error PyError.invalidModelError ∧
    (∀ e, buildModel df = Except.error e → e = PyError.keyError) ∧
    (∀ m, buildModel df = Except.ok m →
      m.alphaSigma = 5 ∧ m.betaInfraSigma = 3 ∧ m.sigmaNeighSigma = 1 ∧
      0 < m.alphaSigma ∧ 0 < m.betaInfraSigma ∧ 0 < m.sigmaNeighSigma ∧
      m.nNeigh = df.nrows) := by
  unfold buildModel
  cases h1 : df.getCol infrastructureCol with
  | none => exact ⟨by simp, by simp, by simp⟩
  | some infra =>
    cases h2 : df.getCol observedDemandCol with
    | none => exact ⟨by simp, by simp, by simp⟩
    | some obs =>
      refine ⟨by simp, by simp, ?_⟩
      intro m hm
      simp only [Except.ok.injEq] at hm
      subst hm
      refine ⟨rfl, rfl, rfl, by norm_num, by norm_num, by norm_num, rfl⟩

/-- Witness for `model_construction_no_validation`: on the concrete
frame, the constructed model carries the hard-coded scale 5 and its
random-effect dimensionality is the row count. -/
theorem model_construction_no_validation_applied :
    exModel.alphaSigma = 5 ∧ exModel.nNeigh = exDf.nrows := by
  obtain ⟨-, -, h3⟩ := model_construction_no_validation exDf
  obtain ⟨h5, -, -, -, -, -, hn⟩ := h3 exModel buildModel_exDf
  exact ⟨h5, hn⟩

/-- C2: in the output of `calculate_residuals`, residual plus predicted
demand equals the observed count, exactly, on every row. -/
theorem residual_conservation
    (df : DataFrame) (trace : Trace) (df' : DataFrame)
    (h : calculate_residuals df trace = Except.ok df')
    (res pred obs : List ℝ)
    (hres : df'.getCol residualsCol = some res)
    (hpred : df'.getCol predictedDemandCol = some pred)
    (hobs : df'.getCol observedDemandCol = some obs)
    (i : ℕ) (hilt : i < res.length) :
    res.getD i 0 + pred.getD i 0 = obs.getD i 0 := by
  obtain ⟨infra, obs0, lam, hi0, ho0, hadd, hslen, hlen, rfl⟩ :=
    calculate_residuals_ok_elim df trace df' h
  rw [getCol_setCol_other _ _ _ _ (by decide), getCol_setCol_same] at hres
  rw [getCol_setCol_same] at hpred
  rw [getCol_setCol_other _ _ _ _ (by decide),
    getCol_setCol_other _ _ _ _ (by decide), ho0] at hobs
  injection hres with hres
  injection hpred with hpred
  injection hobs with hobs
  subst hres
  subst hpred
  subst hobs
  have hobsl : i < obs0.length := by
    rw [List.length_zipWith] at hilt
    omega
  have hPl : i < (lam.map Real.exp).length := by
    rw [List.length_zipWith] at hilt
    omega
  rw [List.getD_eq_getElem _ _ hilt, List.getD_eq_getElem _ _ hPl,
    List.getD_eq_getElem _ _ hobsl, List.getElem_zipWith]
  ring

/-- Witness for `residual_conservation` on the first row of the concrete
run. -/
theorem residual_conservation_applied :
    exRes.getD 0 0 + exPred.getD 0 0 = ([0, 5] : List ℝ).getD 0 0 :=
  residual_conservation exDf exTrace exOut exRun exRes exPred [0, 5]
    exOut_res exOut_pred exOut_obs 0 (by norm_num [exRes])

/-- C3: each predicted demand equals the exponential of the
posterior-mean intercept, plus the posterior-mean coefficient times the
unit's covariate, plus the unit's posterior-mean random effect, each
mean taken across the posterior ensemble. -/
theorem predicted_demand_formula
    (df : DataFrame) (trace : Trace) (df' : DataFrame) (infra pred : List ℝ)
    (h : calculate_residuals df trace = Except.ok df')
    (hi : df.getCol infrastructureCol = some infra)
    (hdim : trace.neighEffDim = infra.length)
    (hpred : df'.getCol predictedDemandCol = some pred)
    (i : ℕ) (hilt : i < pred.length) :
    pred.getD i 0 =
      Real.exp (meanList trace.alphaDraws +
        meanList trace.betaDraws * infra.getD i 0 +
        meanList (trace.neighEffDraws.map (fun d => d.getD i 0))) := by
  obtain ⟨infra0, obs0, lam, hi0, ho0, hadd, hslen, hlen, rfl⟩ :=
    calculate_residuals_ok_elim df trace df' h
  rw [hi0] at hi
  injection hi with hi
  subst hi
  rw [numpyAdd_eq_of_length_eq _ _
    (by simp [columnMeans_length, hdim])] at hadd
  injection hadd with hadd
  subst hadd
  rw [getCol_setCol_same] at hpred
  injection hpred with hpred
  subst hpred
  have hz : i < (List.zipWith (fun x y => x + y)
      (infra0.map (fun x => meanList trace.alphaDraws +
        meanList trace.betaDraws * x))
      (columnMeans trace.neighEffDraws trace.neighEffDim)).length := by
    simpa using hilt
  have hmin := hz
  rw [List.length_zipWith, List.length_map, columnMeans_length] at hmin
  have hinfral : i < infra0.length := by omega
  have hdiml : i < trace.neighEffDim := by omega
  have hcmlt : i < (columnMeans trace.neighEffDraws trace.neighEffDim).length := by
    rw [columnMeans_length]
    exact hdiml
  rw [← columnMeans_getD trace.neighEffDraws trace.neighEffDim i hdiml]
  rw [List.getD_eq_getElem _ _ hilt, List.getD_eq_getElem _ _ hinfral,
    List.getD_eq_getElem _ _ hcmlt]
  rw [List.getElem_map, List.getElem_zipWith, List.getElem_map]

/-- Witness for `predicted_demand_formula` on the first row of the
concrete run. -/
theorem predicted_demand_formula_applied :
    exPred.getD 0 0 =
      Real.exp (meanList exTrace.alphaDraws +
        meanList exTrace.betaDraws * (([0, 1] : List ℝ).getD 0 0) +
        meanList (exTrace.neighEffDraws.map (fun d => d.getD 0 0))) :=
  predicted_demand_formula exDf exTrace exOut [0, 1] exPred exRun exDf_infra
    (by norm_num [exTrace]) exOut_pred 0 (by norm_num [exPred])

/-- C5 counterexample: a posterior ensemble whose random-effect axis has
length 1 while the frame has 2 units raises nothing at all — numpy
broadcasts the single effect and the call silently succeeds. -/
theorem dim_mismatch_no_error_counterexample :
    exTrace5.neighEffDim ≠ exDf.nrows ∧
      calculate_residuals exDf exTrace5 = Except.ok exOut := by
  constructor
  · norm_num [exTrace5, exDf_nrows]
  · exact exRun5

/-- C5 amended: `calculate_residuals` performs no explicit dimension
check and never raises a DimensionMismatchError (no such exception
exists in the code).  On a well-formed frame, a random-effect
dimensionality differing from the unit count fails — with a numpy/pandas
ValueError — exactly when that dimensionality is also not 1; when it is
1, the single effect broadcasts and the call silently succeeds. -/
theorem dim_mismatch_behaviour
    (df : DataFrame) (trace : Trace) (infra obs : List ℝ)
    (hi : df.getCol infrastructureCol = some infra)
    (ho : df.getCol observedDemandCol = some obs)
    (hil : infra.length = df.nrows) (hol : obs.length = df.nrows) :
    calculate_residuals df trace ≠ Except.error PyError.dimensionMismatchError ∧
    (trace.neighEffDim ≠ df.nrows → trace.neighEffDim ≠ 1 →
      calculate_residuals df trace = Except.error PyError.valueError) ∧
    (trace.neighEffDim = df.nrows ∨ trace.neighEffDim = 1 →
      ∃ df', calculate_residuals df trace = Except.ok df') := by
  refine ⟨?_, ?_, ?_⟩
  · intro hcontra
    rcases calculate_residuals_error_cases df trace _ hcontra with h | h
    · simp at h
    · simp at h
  · intro hmn hm1
    by_cases hn1 : infra.length = 1
    · obtain ⟨x, rfl⟩ := List.length_eq_one.mp hn1
      have hadd := numpyAdd_left_one
        (meanList trace.alphaDraws + meanList trace.betaDraws * x)
        (columnMeans trace.neighEffDraws trace.neighEffDim)
      have hsub : seriesSub obs
          (List.map Real.exp
            ((columnMeans trace.neighEffDraws trace.neighEffDim).map
              (fun y => meanList trace.alphaDraws +
                meanList trace.betaDraws * x + y))) = none := by
        apply seriesSub_eq_none
        simp only [List.length_map, columnMeans_length]
        simp only [List.length_singleton] at hil
        omega
      simp only [calculate_residuals, hi, ho, List.map_cons, List.map_nil,
        hadd, hsub]
    · have hadd : numpyAdd (infra.map (fun t =>
          meanList trace.alphaDraws + meanList trace.betaDraws * t))
          (columnMeans trace.neighEffDraws trace.neighEffDim) = none := by
        apply numpyAdd_eq_none
        · simp only [List.length_map, columnMeans_length]
          omega
        · simpa using hn1
        · simpa [columnMeans_length] using hm1
      simp [calculate_residuals, hi, hadd]
  · intro hcase
    rcases hcase with hEq | h1
    · exact ⟨_, calculate_residuals_eq_ok df trace infra obs hi ho (by omega)
        (by omega) (by omega)⟩
    · obtain ⟨u, hu⟩ := List.length_eq_one.mp
        (show (columnMeans trace.neighEffDraws trace.neighEffDim).length = 1 by
          rw [columnMeans_length]; exact h1)
      exact ⟨_, calculate_residuals_eq_ok_bcast df trace infra obs u hi ho hu
        (by omega) (by omega)⟩

/-- Witness for `dim_mismatch_behaviour`: dimensionality 3 against 2
units fails with a ValueError. -/
theorem dim_mismatch_behaviour_applied :
    calculate_residuals exDf exTrace3 = Except.error PyError.valueError :=
  (dim_mismatch_behaviour exDf exTrace3 [0, 1] [0, 5] exDf_infra exDf_obs
    (by norm_num [exDf_nrows]) (by norm_num [exDf_nrows])).2.1
    (by norm_num [exTrace3, exDf_nrows]) (by norm_num [exTrace3])

/-- C8: every predicted-demand entry `calculate_residuals` produces is
strictly positive — in particular finite and non-negative — while the
residual is unconstrained: every real value is attained on some run. -/
theorem predicted_positive_residual_any :
    (∀ df trace df' pred, calculate_residuals df trace = Except.ok df' →
      df'.getCol predictedDemandCol = some pred →
      ∀ i, i < pred.length → 0 < pred.getD i 0) ∧
    (∀ r : ℝ, ∃ df trace df' res,
      calculate_residuals df trace = Except.ok df' ∧
      df'.getCol residualsCol = some res ∧ res.getD 0 0 = r) := by
  constructor
  · intro df trace df' pred h hpred i hilt
    obtain ⟨infra, obs0, lam, hi0, ho0, hadd, hslen, hlen, rfl⟩ :=
      calculate_residuals_ok_elim df trace df' h
    rw [getCol_setCol_same] at hpred
    injection hpred with hpred
    subst hpred
    rw [List.getD_eq_getElem _ _ hilt, List.getElem_map]
    exact Real.exp_pos _
  · intro r
    have hkr : 0 < max r 0 + 1 - r := by
      have h1 : r ≤ max r 0 := le_max_left r 0
      linarith
    refine ⟨DataFrame.mk [(infrastructureCol, [0]),
        (observedDemandCol, [max r 0 + 1])],
      Trace.mk [Real.log (max r 0 + 1 - r)] [0] 1 [[0]],
      ((DataFrame.mk [(infrastructureCol, [0]),
          (observedDemandCol, [max r 0 + 1])]).setCol residualsCol
        (List.zipWith (fun k y => k - y) [max r 0 + 1]
          (predictedOf [0]
            (Trace.mk [Real.log (max r 0 + 1 - r)] [0] 1 [[0]])))).setCol
        predictedDemandCol
        (predictedOf [0]
          (Trace.mk [Real.log (max r 0 + 1 - r)] [0] 1 [[0]])),
      List.zipWith (fun k y => k - y) [max r 0 + 1]
        (predictedOf [0] (Trace.mk [Real.log (max r 0 + 1 - r)] [0] 1 [[0]])),
      calculate_residuals_eq_ok _ _ [0] [max r 0 + 1]
        (getCol_pair_fst [0] [max r 0 + 1])
        (getCol_pair_snd [0] [max r 0 + 1]) rfl rfl rfl, ?_, ?_⟩
    · rw [getCol_setCol_other _ _ _ _ (by decide)]
      exact getCol_setCol_same _ _ _
    · simp [predictedOf, columnMeans, meanList, List.range_succ]
      rw [Real.exp_log hkr]
      ring

/-- Witness for the positivity half of `predicted_positive_residual_any`
on the concrete run. -/
theorem predicted_positive_residual_any_applied : 0 < exPred.getD 0 0 :=
  predicted_positive_residual_any.1 exDf exTrace exOut exPred exRun exOut_pred
    0 (by norm_num [exPred])

/-- C9: a row with observed count 0 and zero covariate yields a strictly
positive predicted demand together with a residual that is non-positive
and equal to minus the predicted demand. -/
theorem zero_count_boundary
    (df : DataFrame) (trace : Trace) (df' : DataFrame)
    (res pred obs infra : List ℝ)
    (h : calculate_residuals df trace = Except.ok df')
    (hi : df.getCol infrastructureCol = some infra)
    (hres : df'.getCol residualsCol = some res)
    (hpred : df'.getCol predictedDemandCol = some pred)
    (hobs : df'.getCol observedDemandCol = some obs)
    (i : ℕ) (hilt : i < res.length)
    (hobs0 : obs.getD i 0 = 0) (hinfra0 : infra.getD i 0 = 0) :
    0 < pred.getD i 0 ∧ res.getD i 0 ≤ 0 ∧
      res.getD i 0 = -(pred.getD i 0) := by
  obtain ⟨infra0, obs0, lam, hi0, ho0, hadd, hslen, hlen, rfl⟩ :=
    calculate_residuals_ok_elim df trace df' h
  rw [getCol_setCol_other _ _ _ _ (by decide), getCol_setCol_same] at hres
  rw [getCol_setCol_same] at hpred
  rw [getCol_setCol_other _ _ _ _ (by decide),
    getCol_setCol_other _ _ _ _ (by decide), ho0] at hobs
  injection hres with hres
  injection hpred with hpred
  injection hobs with hobs
  subst hres
  subst hpred
  subst hobs
  have hobsl : i < obs0.length := by
    rw [List.length_zipWith] at hilt
    omega
  have hPl : i < (lam.map Real.exp).length := by
    rw [List.length_zipWith] at hilt
    omega
  have hlaml : i < lam.length := by
    rw [List.length_map] at hPl
    exact hPl
  rw [List.getD_eq_getElem _ _ hobsl] at hobs0
  have hpos : 0 < (lam.map Real.exp).getD i 0 := by
    rw [List.getD_eq_getElem _ _ hPl, List.getElem_map]
    exact Real.exp_pos _
  have heq : (List.zipWith (fun x y => x - y) obs0 (lam.map Real.exp)).getD i 0 =
      -((lam.map Real.exp).getD i 0) := by
    rw [List.getD_eq_getElem _ _ hilt, List.getElem_zipWith, hobs0,
      List.getD_eq_getElem _ _ hPl]
    ring
  refine ⟨hpos, ?_, heq⟩
  rw [heq]
  linarith

/-- Witness for `zero_count_boundary` on the first row of the concrete
run (covariate 0, observed count 0). -/
theorem zero_count_boundary_applied :
    0 < exPred.getD 0 0 ∧ exRes.getD 0 0 ≤ 0 ∧
      exRes.getD 0 0 = -(exPred.getD 0 0) :=
  zero_count_boundary exDf exTrace exOut exRes exPred [0, 5] [0, 1] exRun
    exDf_infra exOut_res exOut_pred exOut_obs 0 (by norm_num [exRes])
    (by norm_num) (by norm_num)

/-- C10: `calculate_residuals` augments the caller's frame with the
residuals and predicted_demand columns (the in-place `df[...] = ...`
mutation and `return df` are modelled by the returned frame replacing
the caller's binding) and leaves every other column — hence every
pre-existing column's values and the row order — unchanged. -/
theorem residuals_frame_effect
    (df : DataFrame) (trace : Trace) (df' : DataFrame)
    (h : calculate_residuals df trace = Except.ok df') :
    (∀ name, name ≠ residualsCol → name ≠ predictedDemandCol →
      df'.getCol name = df.getCol name) ∧
    (df'.getCol residualsCol).isSome = true ∧
    (df'.getCol predictedDemandCol).isSome = true := by
  obtain ⟨infra, obs0, lam, hi0, ho0, hadd, hslen, hlen, rfl⟩ :=
    calculate_residuals_ok_elim df trace df' h
  refine ⟨?_, ?_, ?_⟩
  · intro name h1 h2
    rw [getCol_setCol_other _ _ _ _ h2, getCol_setCol_other _ _ _ _ h1]
  · rw [getCol_setCol_other _ _ _ _ (by decide), getCol_setCol_same]
    rfl
  · rw [getCol_setCol_same]
    rfl

/-- Witness for `residuals_frame_effect` on the concrete run: the
covariate column is untouched and the residuals column exists. -/
theorem residuals_frame_effect_applied :
    exOut.getCol infrastructureCol = exDf.getCol infrastructureCol ∧
      (exOut.getCol residualsCol).isSome = true := by
  obtain ⟨hp, hr, -⟩ := residuals_frame_effect exDf exTrace exOut exRun
  exact ⟨hp infrastructureCol (by decide) (by decide), hr⟩

end ScooterDemand
